import Mathlib

/-!
Verification of the seat-reservation core of `api.py` (irctc-api).

The database is embedded as explicit state: a `trains` table, a `bookings`
table, the serial counter that assigns booking ids, and the clock used for
`NOW()`.  Each HTTP handler of the source becomes a Lean function from that
state (plus the request parameters) to an `Except`-valued response and, for
the writing handler, a successor state.  `HTTPException` carries the status
code and detail string exactly as `fastapi.HTTPException` does, and the
blanket `except Exception` handler of `book_seat` — which catches the inner
`HTTPException`s, rolls back, and re-raises `HTTPException(400, str(e))` —
is embedded as the wrapper `book_seat` around the try-block body
`book_seat_try`, with `strOfHTTPException` playing the role of `str(e)`
(Starlette renders an `HTTPException` as `"<status_code>: <detail>"`).
-/

namespace IrctcApi

/-- Row of the `trains` table: `id, train_number, source, destination, total_seats`. -/
structure Train where
  id : Nat
  train_number : String
  source : String
  destination : String
  total_seats : Int
  deriving DecidableEq

/-- Row of the `bookings` table: `id, user_id, train_id, seat_number, booking_date`.
The `id` is assigned by the database serial; `booking_date` is the `NOW()` value. -/
structure Booking where
  id : Nat
  user_id : Nat
  train_id : Nat
  seat_number : Int
  booking_date : Nat
  deriving DecidableEq

/-- The `fastapi.HTTPException` payload visible to a caller: status code and detail. -/
structure HTTPException where
  status_code : Nat
  detail : String
  deriving DecidableEq

/-- The persistent state: the two tables, the serial counter backing
`bookings.id`, and the clock backing `NOW()`. -/
structure DBState where
  trains : List Train
  bookings : List Booking
  next_booking_id : Nat
  now : Nat
  deriving DecidableEq

/-- How Python's `str` renders a Starlette/FastAPI `HTTPException`:
`"<status_code>: <detail>"`.  This is the `str(e)` used by the blanket
`except Exception as e` handler in `book_seat`. -/
def strOfHTTPException (e : HTTPException) : String :=
  toString e.status_code ++ ": " ++ e.detail

/-- `get_db_connection` (api.py lines 31-36): on a connection error `e` it
raises `HTTPException(500, "Database connection failed: " + str(e))`; on
success it returns the connection. -/
def get_db_connection (conn : Except String Unit) : Except HTTPException Unit :=
  match conn with
  | .ok c => .ok c
  | .error e => .error ⟨500, "Database connection failed: " ++ e⟩

/-- `SELECT id, total_seats FROM trains WHERE id = %s FOR UPDATE` + `fetchone`:
the first row of `trains` with the given id. -/
def findTrain (db : DBState) (train_id : Nat) : Option Train :=
  db.trains.find? (fun t => t.id == train_id)

/-- `SELECT COUNT(*) FROM bookings WHERE train_id = %s`: the number of
committed bookings for the given train. -/
def bookedSeats (db : DBState) (train_id : Nat) : Nat :=
  (db.bookings.filter (fun b => b.train_id == train_id)).length

/-- The `try:` block of `book_seat` (api.py lines 192-237): resolve the train
(404 if absent), count its bookings, reject with 400 "No seats available"
when the count has reached `total_seats`, otherwise insert the new booking
(serial id, caller-supplied seat number, `NOW()` date) and commit. -/
def book_seat_try (db : DBState) (user_id train_id : Nat) (seat_number : Int) :
    Except HTTPException (Booking × DBState) :=
  match findTrain db train_id with
  | none => .error ⟨404, "Train not found"⟩
  | some train =>
    if (bookedSeats db train_id : Int) ≥ train.total_seats then
      .error ⟨400, "No seats available"⟩
    else
      let new_booking : Booking :=
        ⟨db.next_booking_id, user_id, train_id, seat_number, db.now⟩
      .ok (new_booking,
        ⟨db.trains, db.bookings ++ [new_booking], db.next_booking_id + 1, db.now⟩)

/-- The whole `book_seat` handler (api.py lines 187-244): run the try-block;
on any exception `e` — including the `HTTPException`s raised inside the
block, since `HTTPException` is an `Exception` — roll the transaction back
(the state reverts to `db`) and raise `HTTPException(400, str(e))`. -/
def book_seat (db : DBState) (user_id train_id : Nat) (seat_number : Int) :
    Except HTTPException Booking × DBState :=
  match book_seat_try db user_id train_id seat_number with
  | .ok (b, db2) => (.ok b, db2)
  | .error e => (.error ⟨400, strOfHTTPException e⟩, db)

/-- `available_seats` as computed by the availability query:
`total_seats - COUNT(bookings for the train)`. -/
def available_seats (db : DBState) (t : Train) : Int :=
  t.total_seats - (bookedSeats db t.id : Int)

/-- The `get_seat_availability` query (api.py lines 164-185): every train
matching the requested source and destination, paired with
`total_seats - COALESCE(COUNT(b.id), 0)` from the LEFT JOIN with `bookings`
grouped by `t.id`. -/
def get_seat_availability (db : DBState) (src dst : String) : List (Train × Int) :=
  (db.trains.filter (fun t => t.source == src && t.destination == dst)).map
    (fun t => (t, available_seats db t))

/-- The `/availability` handler's response: the handler has a `try/finally`
with no `except`, raises nothing itself, and returns `{"trains": trains}`,
so (given a live connection) it always succeeds with the query result. -/
def get_seat_availability_response (db : DBState) (src dst : String) :
    Except HTTPException (List (Train × Int)) :=
  .ok (get_seat_availability db src dst)

/-- Result row of `get_booking_details`: `b.*` joined with
`t.train_number, t.source, t.destination`. -/
structure BookingDetails where
  booking : Booking
  train_number : String
  source : String
  destination : String
  deriving DecidableEq

/-- The join of `get_booking_details`:
`FROM bookings b JOIN trains t ON b.train_id = t.id
WHERE b.id = %s AND b.user_id = %s`, as a nested loop over the two tables. -/
def bookingJoinRows (db : DBState) (booking_id user_id : Nat) : List BookingDetails :=
  (db.bookings.filter (fun b => b.id == booking_id && b.user_id == user_id)).flatMap
    (fun b => (db.trains.filter (fun t => t.id == b.train_id)).map
      (fun t => ⟨b, t.train_number, t.source, t.destination⟩))

/-- The `get_booking_details` handler (api.py lines 246-269): `fetchone` on
the join; 404 "Booking not found" when no row matches, the joined row
otherwise.  The handler has only `try/finally`, so the 404 reaches the
caller unwrapped. -/
def get_booking_details (db : DBState) (booking_id user_id : Nat) :
    Except HTTPException BookingDetails :=
  match (bookingJoinRows db booking_id user_id).head? with
  | none => .error ⟨404, "Booking not found"⟩
  | some r => .ok r

instance {ε α : Type} [DecidableEq ε] [DecidableEq α] : DecidableEq (Except ε α) := fun x y =>
  match x, y with
  | .error a, .error b =>
    if h : a = b then .isTrue (by rw [h]) else .isFalse (fun hh => h (by cases hh; rfl))
  | .error _, .ok _ => .isFalse (fun hh => Except.noConfusion hh)
  | .ok _, .error _ => .isFalse (fun hh => Except.noConfusion hh)
  | .ok a, .ok b =>
    if h : a = b then .isTrue (by rw [h]) else .isFalse (fun hh => h (by cases hh; rfl))

/-! Concrete states used by the scenario theorems and the witnesses. -/

/-- A capacity-2 train, the `T2` of the spec's fill-up scenario. -/
def trT2 : Train := ⟨1, "T2", "A", "B", 2⟩

/-- Fresh database holding only `trT2`, with no bookings. -/
def dbT2 : DBState := ⟨[trT2], [], 1, 0⟩

/-- The booking committed by the first reserve call against `dbT2`. -/
def bkT2_first : Booking := ⟨1, 10, 1, 5, 0⟩

/-- The booking committed by the second reserve call. -/
def bkT2_second : Booking := ⟨2, 11, 1, 6, 0⟩

/-- State after the first successful booking on `dbT2`. -/
def dbT2a : DBState := ⟨[trT2], [bkT2_first], 2, 0⟩

/-- State after the second successful booking. -/
def dbT2b : DBState := ⟨[trT2], [bkT2_first, bkT2_second], 3, 0⟩

/-- Database with no trains at all. -/
def dbEmpty : DBState := ⟨[], [], 1, 0⟩

/-- A capacity-2 train used for the duplicate-seat-number scenario. -/
def trT9 : Train := ⟨7, "T9", "C", "D", 2⟩

/-- Fresh database holding only `trT9`. -/
def dbDup : DBState := ⟨[trT9], [], 1, 0⟩

/-- After one booking of seat 3 on `trT9` by user 20. -/
def dbDup1 : DBState := ⟨[trT9], [⟨1, 20, 7, 3, 0⟩], 2, 0⟩

/-- After a second booking of the same seat 3 on `trT9` by user 21. -/
def dbDup2 : DBState := ⟨[trT9], [⟨1, 20, 7, 3, 0⟩, ⟨2, 21, 7, 3, 0⟩], 3, 0⟩

/-- Database whose single booking (id 1) belongs to user 99. -/
def dbOwn : DBState := ⟨[trT2], [⟨1, 99, 1, 5, 0⟩], 2, 0⟩

/-- C3: on the capacity-2 train `T2` with no prior bookings, three sequential
reserve calls: the first two succeed with distinct grant ids, the third
fails with the capacity-exceeded rejection (HTTP 400, "No seats available",
re-rendered by the blanket exception handler), the state is left unchanged
by the failure, and exactly two bookings for the train remain. -/
theorem sequential_fill_up :
    book_seat dbT2 10 1 5 = (.ok bkT2_first, dbT2a) ∧
    book_seat dbT2a 11 1 6 = (.ok bkT2_second, dbT2b) ∧
    bkT2_first.id ≠ bkT2_second.id ∧
    book_seat dbT2b 12 1 7 = (.error ⟨400, "400: No seats available"⟩, dbT2b) ∧
    bookedSeats dbT2b 1 = 2 := by
  decide

/-- C9: two reserve calls for the same capacity-2 train supplying the same
seat number 3 both succeed, leaving two committed bookings with identical
`(train_id, seat_number)`: `book_seat` performs no uniqueness or range
validation on the caller-supplied seat number. -/
theorem duplicate_seat_numbers :
    book_seat dbDup 20 7 3 = (.ok ⟨1, 20, 7, 3, 0⟩, dbDup1) ∧
    book_seat dbDup1 21 7 3 = (.ok ⟨2, 21, 7, 3, 0⟩, dbDup2) ∧
    dbDup2.bookings = [⟨1, 20, 7, 3, 0⟩, ⟨2, 21, 7, 3, 0⟩] ∧
    (⟨1, 20, 7, 3, 0⟩ : Booking).train_id = (⟨2, 21, 7, 3, 0⟩ : Booking).train_id ∧
    (⟨1, 20, 7, 3, 0⟩ : Booking).seat_number = (⟨2, 21, 7, 3, 0⟩ : Booking).seat_number ∧
    bookedSeats dbDup2 7 = 2 := by
  decide

/-- C5: reserving against the unknown train id 9999 creates no booking, but
the `HTTPException(404, "Train not found")` raised inside the try block is
caught by the blanket `except Exception` and re-raised as
`HTTPException(400, str(e))`: the caller sees status 400 with detail
"404: Train not found", not the 404 NotFound verbatim. -/
theorem reserve_unknown_resource_wrapped :
    book_seat dbT2 1 9999 1 = (.error ⟨400, "404: Train not found"⟩, dbT2) ∧
    (book_seat dbT2 1 9999 1).1 ≠ .error ⟨404, "Train not found"⟩ := by
  decide

/-- C6 counterexample: with no train in the database (so the resource does
not exist), the availability endpoint succeeds with an empty list — it does
not fail with NotFound, and it does not even take a resource identifier
(its input is a source/destination route). -/
theorem availability_unknown_route_ok :
    get_seat_availability_response dbEmpty "X" "Y" = .ok [] ∧
    get_seat_availability_response dbEmpty "X" "Y" ≠ .error ⟨404, "Train not found"⟩ := by
  decide

/-- C10 counterexample: two distinct internal store errors produce distinct
caller-visible failures, because `get_db_connection` embeds `str(e)` in the
500 detail — the failure is not opaque. -/
theorem store_error_leak :
    get_db_connection (.error "connection refused") ≠
      get_db_connection (.error "timeout") ∧
    get_db_connection (.error "connection refused") =
      .error ⟨500, "Database connection failed: connection refused"⟩ := by
  decide

/-! Characterizations of `book_seat` on its three paths, shared by the
claim theorems below. -/

/-- Unknown train: the inner 404 is wrapped by the blanket handler. -/
theorem book_seat_not_found (db : DBState) (user_id train_id : Nat) (seat_number : Int)
    (h : findTrain db train_id = none) :
    book_seat db user_id train_id seat_number =
      (.error ⟨400, strOfHTTPException ⟨404, "Train not found"⟩⟩, db) := by
  simp [book_seat, book_seat_try, h]

/-- Full train: the inner 400 is wrapped by the blanket handler. -/
theorem book_seat_full (db : DBState) (user_id train_id : Nat) (seat_number : Int)
    (t : Train) (ht : findTrain db train_id = some t)
    (hc : (bookedSeats db train_id : Int) ≥ t.total_seats) :
    book_seat db user_id train_id seat_number =
      (.error ⟨400, strOfHTTPException ⟨400, "No seats available"⟩⟩, db) := by
  simp [book_seat, book_seat_try, ht, hc]

/-- Available train: the new booking is inserted and committed. -/
theorem book_seat_success (db : DBState) (user_id train_id : Nat) (seat_number : Int)
    (t : Train) (ht : findTrain db train_id = some t)
    (hc : ¬(bookedSeats db train_id : Int) ≥ t.total_seats) :
    book_seat db user_id train_id seat_number =
      (.ok ⟨db.next_booking_id, user_id, train_id, seat_number, db.now⟩,
       ⟨db.trains, db.bookings ++ [⟨db.next_booking_id, user_id, train_id, seat_number, db.now⟩],
        db.next_booking_id + 1, db.now⟩) := by
  simp [book_seat, book_seat_try, ht, hc]

/-- Inversion: a successful `book_seat` call found its train, saw spare
capacity, and appended exactly the returned booking. -/
theorem book_seat_ok_inv (db : DBState) (user_id train_id : Nat) (seat_number : Int)
    (b : Booking) (db2 : DBState)
    (h : book_seat db user_id train_id seat_number = (.ok b, db2)) :
    ∃ t, findTrain db train_id = some t ∧
      ¬(bookedSeats db train_id : Int) ≥ t.total_seats ∧
      b = ⟨db.next_booking_id, user_id, train_id, seat_number, db.now⟩ ∧
      db2 = ⟨db.trains, db.bookings ++ [b], db.next_booking_id + 1, db.now⟩ := by
  cases hft : findTrain db train_id with
  | none =>
    rw [book_seat_not_found db user_id train_id seat_number hft] at h
    simp [Prod.ext_iff] at h
  | some t =>
    by_cases hc : (bookedSeats db train_id : Int) ≥ t.total_seats
    · rw [book_seat_full db user_id train_id seat_number t hft hc] at h
      simp [Prod.ext_iff] at h
    · rw [book_seat_success db user_id train_id seat_number t hft hc] at h
      have h1 := congrArg Prod.fst h
      have h2 := congrArg Prod.snd h
      simp only at h1 h2
      injection h1 with h1
      subst h1
      exact ⟨t, rfl, hc, rfl, h2.symm⟩

/-- C4: whenever `book_seat` fails — for any reason — the transaction is
rolled back and the state (both tables, the id counter, the clock, hence
the grants of every resource) is exactly what it was before the call. -/
theorem book_seat_rollback (db : DBState) (user_id train_id : Nat) (seat_number : Int)
    (h : ∃ e, (book_seat db user_id train_id seat_number).1 = .error e) :
    (book_seat db user_id train_id seat_number).2 = db := by
  obtain ⟨e, he⟩ := h
  rcases hb : book_seat_try db user_id train_id seat_number with e2 | ⟨b, db2⟩
  · simp [book_seat, hb]
  · simp [book_seat, hb] at he

/-- Witness for C4: the failed reservation against unknown train 9999
leaves the state unchanged. -/
theorem book_seat_rollback_witness :
    (book_seat dbT2 1 9999 1).2 = dbT2 :=
  book_seat_rollback dbT2 1 9999 1 ⟨⟨400, "404: Train not found"⟩, by decide⟩

/-- C1: with the train resolved, (a) a reservation only commits from a state
whose booking count is strictly below the capacity, (b) the invariant
`count <= capacity` is preserved by the call, and (c) the booking count of
every other resource is untouched. -/
theorem book_seat_no_overbooking (db : DBState) (user_id train_id : Nat) (seat_number : Int)
    (t : Train) (tid2 : Nat) (ht : findTrain db train_id = some t) :
    ((book_seat db user_id train_id seat_number).1.isOk = true →
      (bookedSeats db train_id : Int) < t.total_seats) ∧
    ((bookedSeats db train_id : Int) ≤ t.total_seats →
      (bookedSeats (book_seat db user_id train_id seat_number).2 train_id : Int) ≤
        t.total_seats) ∧
    (tid2 ≠ train_id →
      bookedSeats (book_seat db user_id train_id seat_number).2 tid2 = bookedSeats db tid2) := by
  by_cases hc : (bookedSeats db train_id : Int) ≥ t.total_seats
  · rw [book_seat_full db user_id train_id seat_number t ht hc]
    refine ⟨fun hok => ?_, fun hle => hle, fun _ => rfl⟩
    simp [Except.isOk, Except.toBool] at hok
  · rw [book_seat_success db user_id train_id seat_number t ht hc]
    refine ⟨fun _ => by omega, fun hle => ?_, fun hne => ?_⟩
    · simp only [bookedSeats, List.filter_append] at hle ⊢
      simp only [List.filter_cons, List.filter_nil] at *
      simp only [beq_self_eq_true, if_pos, List.length_append] at *
      simp only [bookedSeats] at hc
      simp
      omega
    · simp only [bookedSeats, List.filter_append]
      have : ((⟨db.next_booking_id, user_id, train_id, seat_number,
          db.now⟩ : Booking).train_id == tid2) = false := by
        simp [beq_iff_eq]
        exact fun hcontra => hne hcontra.symm
      simp [this]

/-- Witness for C1: the fresh capacity-2 train, booked once, satisfies all
three conjuncts. -/
theorem book_seat_no_overbooking_witness :
    ((book_seat dbT2 10 1 5).1.isOk = true → (bookedSeats dbT2 1 : Int) < trT2.total_seats) ∧
    ((bookedSeats dbT2 1 : Int) ≤ trT2.total_seats →
      (bookedSeats (book_seat dbT2 10 1 5).2 1 : Int) ≤ trT2.total_seats) ∧
    ((2 : Nat) ≠ 1 → bookedSeats (book_seat dbT2 10 1 5).2 2 = bookedSeats dbT2 2) :=
  book_seat_no_overbooking dbT2 10 1 5 trT2 2 (by decide)

/-- `fetchone` on a WHERE clause: the first row found is the head of the
filtered table. -/
theorem find_eq_head_filter {α : Type} (p : α → Bool) (l : List α) :
    l.find? p = (l.filter p).head? := by
  induction l with
  | nil => rfl
  | cons a l ih =>
    by_cases h : p a
    · rw [List.find?_cons_of_pos l h, List.filter_cons_of_pos h]
      rfl
    · rw [List.find?_cons_of_neg l h, List.filter_cons_of_neg h, ih]

/-- C2: for every train of the requested route, the availability query
lists it with `available_seats = total_seats - count(bookings)`; any value
listed for it equals that difference; and with zero bookings the
difference is the full capacity. -/
theorem get_seat_availability_correct (db : DBState) (src dst : String) (t : Train) (a : Int)
    (ht : t ∈ db.trains) (hsrc : t.source = src) (hdst : t.destination = dst) :
    (t, t.total_seats - (bookedSeats db t.id : Int)) ∈ get_seat_availability db src dst ∧
    ((t, a) ∈ get_seat_availability db src dst →
      a = t.total_seats - (bookedSeats db t.id : Int)) ∧
    (bookedSeats db t.id = 0 →
      t.total_seats - (bookedSeats db t.id : Int) = t.total_seats) := by
  refine ⟨?_, ?_, ?_⟩
  · have hf : t ∈ db.trains.filter (fun t => t.source == src && t.destination == dst) := by
      simp [List.mem_filter, ht, hsrc, hdst]
    exact List.mem_map_of_mem _ hf
  · intro hmem
    obtain ⟨t2, _, heq⟩ := List.mem_map.mp hmem
    injection heq with h1 h2
    subst h1
    exact h2.symm
  · intro h0
    rw [h0]
    simp

/-- Witness for C2: the once-booked capacity-2 train on its own route. -/
theorem get_seat_availability_correct_witness :
    (trT2, trT2.total_seats - (bookedSeats dbT2a trT2.id : Int)) ∈
      get_seat_availability dbT2a "A" "B" ∧
    ((trT2, 1) ∈ get_seat_availability dbT2a "A" "B" →
      (1 : Int) = trT2.total_seats - (bookedSeats dbT2a trT2.id : Int)) ∧
    (bookedSeats dbT2a trT2.id = 0 →
      trT2.total_seats - (bookedSeats dbT2a trT2.id : Int) = trT2.total_seats) :=
  get_seat_availability_correct dbT2a "A" "B" trT2 1 (by decide) (by decide) (by decide)

/-- C6 (amended): the availability operation is keyed by a route, and when
no train matches the requested source and destination it succeeds with an
empty list — there is no NotFound failure path. -/
theorem availability_unknown_route_empty (db : DBState) (src dst : String)
    (h : ∀ t ∈ db.trains, ¬(t.source = src ∧ t.destination = dst)) :
    get_seat_availability_response db src dst = .ok [] := by
  unfold get_seat_availability_response get_seat_availability
  have hf : db.trains.filter (fun t => t.source == src && t.destination == dst) = [] := by
    rw [List.filter_eq_nil_iff]
    intro t htmem
    simp only [Bool.and_eq_true, beq_iff_eq, not_and]
    exact fun hs hd => h t htmem ⟨hs, hd⟩
  rw [hf]
  rfl

/-- Witness for C6 (amended): the empty database. -/
theorem availability_unknown_route_empty_witness :
    get_seat_availability_response dbEmpty "X" "Y" = .ok [] :=
  availability_unknown_route_empty dbEmpty "X" "Y" (by decide)

/-- C7: whenever no booking row carries both the requested id and the
requesting owner — be it because no booking with that id exists at all, or
because it belongs to a different owner — `get_booking_details` returns the
one same failure, 404 "Booking not found": the two cases are
indistinguishable to the caller. -/
theorem get_booking_details_isolation (db : DBState) (booking_id user_id : Nat)
    (h : ∀ b ∈ db.bookings, b.id = booking_id → b.user_id ≠ user_id) :
    get_booking_details db booking_id user_id = .error ⟨404, "Booking not found"⟩ := by
  unfold get_booking_details bookingJoinRows
  have hf : db.bookings.filter (fun b => b.id == booking_id && b.user_id == user_id) = [] := by
    rw [List.filter_eq_nil_iff]
    intro b hb
    simp only [Bool.and_eq_true, beq_iff_eq, not_and]
    exact h b hb
  rw [hf]
  rfl

/-- Witness for C7: booking 1 belongs to user 99; user 50's query gets the
same 404 a nonexistent booking would get. -/
theorem get_booking_details_isolation_witness :
    get_booking_details dbOwn 1 50 = .error ⟨404, "Booking not found"⟩ :=
  get_booking_details_isolation dbOwn 1 50 (by decide)

/-- C8: after a successful reservation (in a state whose serial counter is
ahead of every stored booking id, as the database serial guarantees), the
owner's query returns the new booking joined with its train's summary, the
booking count of the train has grown by one, and the availability the
query path now reports for that train is one less than before. -/
theorem reserve_roundtrip (db : DBState) (user_id train_id : Nat) (seat_number : Int)
    (b : Booking) (db2 : DBState) (t : Train)
    (hfresh : ∀ bk ∈ db.bookings, bk.id < db.next_booking_id)
    (ht : findTrain db train_id = some t)
    (h : book_seat db user_id train_id seat_number = (.ok b, db2)) :
    get_booking_details db2 b.id user_id = .ok ⟨b, t.train_number, t.source, t.destination⟩ ∧
    bookedSeats db2 train_id = bookedSeats db train_id + 1 ∧
    available_seats db2 t = available_seats db t - 1 ∧
    (t, available_seats db t - 1) ∈ get_seat_availability db2 t.source t.destination := by
  obtain ⟨t2, ht2, hc, hb, hdb2⟩ := book_seat_ok_inv db user_id train_id seat_number b db2 h
  rw [ht] at ht2
  injection ht2 with ht2
  subst ht2
  have htid : t.id = train_id := by
    have hp := List.find?_some ht
    simpa using hp
  have htmem : t ∈ db.trains := List.mem_of_find?_eq_some ht
  have hbid : b.id = db.next_booking_id := by rw [hb]
  have hbuser : b.user_id = user_id := by rw [hb]
  have hbtrain : b.train_id = train_id := by rw [hb]
  subst hdb2
  have hcount : bookedSeats
      (⟨db.trains, db.bookings ++ [b], db.next_booking_id + 1, db.now⟩ : DBState) train_id =
      bookedSeats db train_id + 1 := by
    simp [bookedSeats, List.filter_append, hbtrain]
  have havail : available_seats
      (⟨db.trains, db.bookings ++ [b], db.next_booking_id + 1, db.now⟩ : DBState) t =
      available_seats db t - 1 := by
    unfold available_seats
    rw [htid, hcount]
    push_cast
    ring
  refine ⟨?_, hcount, havail, ?_⟩
  · unfold get_booking_details bookingJoinRows
    have hfilter : (db.bookings ++ [b]).filter
        (fun bk => bk.id == b.id && bk.user_id == user_id) = [b] := by
      rw [List.filter_append]
      have h1 : db.bookings.filter (fun bk => bk.id == b.id && bk.user_id == user_id) = [] := by
        rw [List.filter_eq_nil_iff]
        intro bk hbk
        have hlt := hfresh bk hbk
        simp only [Bool.and_eq_true, beq_iff_eq, not_and]
        intro hid _
        rw [hbid] at hid
        omega
      have h2 : [b].filter (fun bk => bk.id == b.id && bk.user_id == user_id) = [b] := by
        simp [hbuser]
      rw [h1, h2]
      rfl
    rw [hfilter]
    simp only [List.flatMap_cons, List.flatMap_nil, List.append_nil]
    rw [List.head?_map]
    have hfind : (db.trains.filter (fun tt => tt.id == b.train_id)).head? = some t := by
      rw [← find_eq_head_filter, hbtrain]
      exact ht
    rw [hfind]
    rfl
  · unfold get_seat_availability
    refine List.mem_map.mpr ⟨t, ?_, ?_⟩
    · simp [List.mem_filter, htmem]
    · rw [havail]

/-- Witness for C8: the first booking on the fresh capacity-2 train. -/
theorem reserve_roundtrip_witness :
    get_booking_details dbT2a bkT2_first.id 10 =
      .ok ⟨bkT2_first, trT2.train_number, trT2.source, trT2.destination⟩ ∧
    bookedSeats dbT2a 1 = bookedSeats dbT2 1 + 1 ∧
    available_seats dbT2a trT2 = available_seats dbT2 trT2 - 1 ∧
    (trT2, available_seats dbT2 trT2 - 1) ∈
      get_seat_availability dbT2a trT2.source trT2.destination :=
  reserve_roundtrip dbT2 10 1 5 bkT2_first dbT2a trT2 (by decide) (by decide) (by decide)

/-- C10 (amended): a store-connection failure is surfaced as HTTP 500 whose
detail embeds the internal storage error text after "Database connection
failed: " — so two distinct internal errors are distinguishable by the
caller, not opaque. -/
theorem get_db_connection_error_detail (e1 e2 : String) (h : e1 ≠ e2) :
    get_db_connection (.error e1) = .error ⟨500, "Database connection failed: " ++ e1⟩ ∧
    get_db_connection (.error e1) ≠ get_db_connection (.error e2) := by
  refine ⟨rfl, ?_⟩
  intro hcontra
  unfold get_db_connection at hcontra
  injection hcontra with hcontra
  have hdet := congrArg HTTPException.detail hcontra
  have hdata := congrArg String.data hdet
  simp only [String.data_append, List.append_cancel_left_eq] at hdata
  exact h (String.ext hdata)

/-- Witness for C10 (amended): the two concrete error strings "a" and "b". -/
theorem get_db_connection_error_detail_witness :
    get_db_connection (.error "a") = .error ⟨500, "Database connection failed: " ++ "a"⟩ ∧
    get_db_connection (.error "a") ≠ get_db_connection (.error "b") :=
  get_db_connection_error_detail "a" "b" (by decide)

end IrctcApi
